import Mathlib

/-!
Verification of the DocumentDB Ansible modules (`library/docdb_cluster.py`,
`library/docdb_instance.py`) against their natural-language specification.

The Python code is shallowly embedded: boto3 response dictionaries become
association lists of string keys to a small value type, remote calls become
entries of a call trace, and each module function becomes a Lean function
from its parameters and the environment's remote-call results to the call
trace it issues together with its exit condition.  Remote service errors are
modelled as botocore `ClientError` values carrying an error code, which is how
boto3 surfaces every remote service failure (not-found, throttling, auth,
bad request); `boto.exception.BotoServerError` and botocore waiter errors are
modelled as separate exception classes because the source's `except` clauses
distinguish them.
-/

namespace Docdb

/-- One element of a boto3 `VpcSecurityGroups` list: a dictionary holding the
group identifier and its membership status. -/
structure SecurityGroupMembership where
  vpcSecurityGroupId : String
  status : String
deriving DecidableEq, Repr

/-- Python values stored in the dictionaries the modules build and read. -/
inductive Val where
  | str (s : String)
  | int (n : Int)
  | bool (b : Bool)
  | pyNone
  | strList (l : List String)
  | tagList (l : List (String × String))
  | sgList (l : List SecurityGroupMembership)
deriving DecidableEq, Repr

/-- A Python dictionary with string keys, kept in insertion order. -/
abbrev Dict := List (String × Val)

/-- Python dictionary assignment `d[k] = v`: replaces the value at an existing
key in place, otherwise appends the new binding at the end. -/
def dictInsert : Dict → String → Val → Dict
  | [], k, v => [(k, v)]
  | (k₀, v₀) :: rest, k, v =>
      if k₀ = k then (k, v) :: rest else (k₀, v₀) :: dictInsert rest k v

/-- Python dictionary lookup `d.get(k)` / `d[k]` (as an `Option`). -/
def dictGet : Dict → String → Option Val
  | [], _ => none
  | (k₀, v₀) :: rest, k => if k₀ = k then some v₀ else dictGet rest k

/-- `if x is not None: d[k] = f(x)` — the guard pattern used throughout the
modules when building request dictionaries from optional parameters. -/
def insOpt {α : Type} (d : Dict) (k : String) (f : α → Val) : Option α → Dict
  | some v => dictInsert d k (f v)
  | none => d

theorem dictGet_dictInsert (d : Dict) (k k₂ : String) (v : Val) :
    dictGet (dictInsert d k v) k₂ = if k₂ = k then some v else dictGet d k₂ := by
  induction d with
  | nil =>
      by_cases h : k₂ = k
      · subst h; simp [dictInsert, dictGet]
      · have h₁ : ¬ k = k₂ := fun hh => h hh.symm
        simp [dictInsert, dictGet, h, h₁]
  | cons hd tl ih =>
      obtain ⟨k₀, v₀⟩ := hd
      by_cases h₀ : k₀ = k
      · subst h₀
        by_cases h₂ : k₂ = k₀
        · subst h₂; simp [dictInsert, dictGet]
        · have h₁ : ¬ k₀ = k₂ := fun hh => h₂ hh.symm
          simp [dictInsert, dictGet, h₂, h₁]
      · by_cases h₂ : k₀ = k₂
        · subst h₂
          simp [dictInsert, dictGet, h₀]
        · simp [dictInsert, dictGet, h₀, h₂, ih]

theorem dictGet_insOpt_ne {α : Type} (d : Dict) (k : String) (f : α → Val)
    (o : Option α) (k₂ : String) (h : k₂ ≠ k) :
    dictGet (insOpt d k f o) k₂ = dictGet d k₂ := by
  cases o <;> simp [insOpt, dictGet_dictInsert, h]

theorem dictGet_insOpt_some {α : Type} (d : Dict) (k : String) (f : α → Val)
    {o : Option α} {v : α} (h : o = some v) :
    dictGet (insOpt d k f o) k = some (f v) := by
  subst h
  simp [insOpt, dictGet_dictInsert]

theorem insOpt_none {α : Type} (d : Dict) (k : String) (f : α → Val) :
    insOpt d k f none = d := rfl

theorem dictGet_eq_none_iff (d : Dict) (k : String) :
    dictGet d k = none ↔ k ∉ d.map Prod.fst := by
  induction d with
  | nil => simp [dictGet]
  | cons hd tl ih =>
      obtain ⟨k₀, v₀⟩ := hd
      by_cases h : k₀ = k
      · subst h
        simp [dictGet]
      · have h₁ : ¬ k = k₀ := fun hh => h hh.symm
        simp [dictGet, h, h₁, ih]

/-- A botocore `ClientError`: the exception class boto3 raises for every
remote service failure; the error code distinguishes not-found from
throttling, auth and other failures. -/
structure AwsClientError where
  code : String
deriving DecidableEq, Repr

/-- The exception classes that can emerge from a remote call in the source's
error handling: `botocore.exceptions.ClientError`, the legacy
`boto.exception.BotoServerError`, and a botocore waiter failure (the
`get_waiter(...).wait(...)` primitive raises `WaiterError`, not
`ClientError`). -/
inductive RemoteErr where
  | clientError (e : AwsClientError)
  | botoServerError (msg : String)
  | waiterFailure (msg : String)
deriving DecidableEq, Repr

/-- `str(e)` as used in `fail_json(msg=str(e))`. -/
def errMsg : RemoteErr → String
  | .clientError e => "ClientError: " ++ e.code
  | .botoServerError m => "BotoServerError: " ++ m
  | .waiterFailure m => "WaiterError: " ++ m

/-- One remote call (or local sleep) issued by a module function, in order. -/
inductive Call where
  | describeDBClusters (id : String)
  | createDBCluster (args : Dict)
  | restoreDBClusterFromSnapshot (args : Dict)
  | modifyDBCluster (id : String) (args : Dict)
  | deleteDBCluster (id : String) (args : Dict)
  | startDBCluster (id : String)
  | describeDBInstances (id : String)
  | createDBInstance (args : Dict)
  | modifyDBInstance (id : String) (args : Dict)
  | deleteDBInstance (id : String) (args : Dict)
  | listTagsForResource (arn : String)
  | removeTagsFromResource (arn : String) (keys : List String)
  | addTagsToResource (arn : String) (tags : List (String × String))
  | waiterWait (name : String) (id : String)
  | sleep (seconds : Nat)
deriving DecidableEq, Repr

/-- The Python value bound to `result` when a module function exits. -/
inductive PyResult where
  | apiResponse (d : Dict)
  | dbCluster (c : Dict)
  | dbInstance (i : Dict)
  | errObj (e : RemoteErr)
  | pyTrue
deriving DecidableEq, Repr

/-- How a modelled module function leaves its pre-wait phase. -/
inductive Exit where
  /-- `module.exit_json(result=...)` was reached. -/
  | exited (r : PyResult)
  /-- `module.fail_json(msg=...)` was reached. -/
  | failed (msg : String)
  /-- Control reached the optional wait section with `result` bound and
  `params[wait_timeout]` holding the given (possibly adjusted) value. -/
  | proceedWait (r : PyResult) (waitTimeout : Int)
  /-- An exception escaped every `except` clause of the function. -/
  | uncaught (e : RemoteErr)
  /-- A Python-level error (`KeyError`, `NameError`, ...) was raised. -/
  | pyError (msg : String)
deriving DecidableEq, Repr

end Docdb

namespace Docdb

/-- The module parameters of `docdb_cluster.py` (`module_args` in `main`).
`cluster_id` is declared `required=True`, so it is a plain `String`; every
other option defaults to `None` when not supplied.  `wait_timeout` defaults
to `0` through the argument spec. -/
structure ClusterParams where
  availability_zones : Option (List String)
  cluster_id : String
  engine : Option String
  engine_version : Option String
  force_update_password : Option Bool
  master_username : Option String
  master_password : Option String
  port : Option Int
  snapshot_arn : Option String
  cluster_parameter_group : Option String
  state : String
  subnet_group : Option String
  tags : Option (List (String × String))
  vpc_security_group_ids : Option (List String)
  wait : Bool
  wait_timeout : Int
  final_db_cluster_snapshot_identifier : Option String
deriving DecidableEq, Repr

/-- `create_cluster` lines 202-212: the `api_args` dictionary built from the
optional attributes; each entry is added only when the parameter is not
`None`. -/
def baseApiArgs (p : ClusterParams) : Dict :=
  insOpt
    (insOpt
      (insOpt
        (insOpt
          (insOpt [] "AvailabilityZones" Val.strList p.availability_zones)
          "EngineVersion" Val.str p.engine_version)
        "Port" Val.int p.port)
      "VpcSecurityGroupIds" Val.strList p.vpc_security_group_ids)
    "Tags" Val.tagList p.tags

/-- `create_cluster` lines 226-227: `api_args` as it stands when the cluster
already exists, after the optional `DBClusterParameterGroupName` entry. -/
def clusterApiArgsExisting (p : ClusterParams) : Dict :=
  insOpt (baseApiArgs p) "DBClusterParameterGroupName" Val.str p.cluster_parameter_group

/-- Python's `sorted` on a list of strings: the sorted permutation of the
input (unique because string comparison is a linear order). -/
def sortedStrings (l : List String) : List String :=
  l.insertionSort (· ≤ ·)

/-- `create_cluster` line 231: the differ's decision for the security-group
attribute — changed iff the sorted observed identifiers differ from the
sorted desired identifiers. -/
def sgChanged (observed desired : List String) : Bool :=
  sortedStrings observed ≠ sortedStrings desired

/-- The loop body of `create_cluster` lines 230-234: whether one `api_args`
entry belongs in `modify_args`.  `VpcSecurityGroupIds` is compared as a
sorted list against the identifiers extracted from the observed cluster's
`VpcSecurityGroups`, `Tags` is never taken, and every other attribute is
compared against the observed cluster's value at the same key (a missing key
raises a Python `KeyError`, modelled as an `.error`). -/
def entryDecision (cluster : Dict) (opt : String) (val : Val) : Except String Bool :=
  if opt = "VpcSecurityGroupIds" then
    match dictGet cluster "VpcSecurityGroups", val with
    | some (Val.sgList gs), Val.strList ids =>
        .ok (sgChanged (gs.map (fun g => g.vpcSecurityGroupId)) ids)
    | none, _ => .error "KeyError: VpcSecurityGroups"
    | some _, _ => .error "TypeError: VpcSecurityGroups"
  else if opt = "Tags" then
    .ok false
  else
    match dictGet cluster opt with
    | some observed => .ok (decide (observed ≠ val))
    | none => .error ("KeyError: " ++ opt)

/-- `create_cluster` lines 228-234: the `modify_args` loop.  Iterates over the
`api_args` entries in insertion order, keeping each entry `entryDecision`
marks as changed; a raised `KeyError` aborts the loop at that entry. -/
def buildModifyArgs (cluster : Dict) : Dict → Except String Dict
  | [] => .ok []
  | (opt, val) :: rest =>
      match entryDecision cluster opt val with
      | .error msg => .error msg
      | .ok keep =>
          (buildModifyArgs cluster rest).map
            (fun m => if keep then (opt, val) :: m else m)

/-- `if params[wait_timeout] == 0: params[wait_timeout] = default` — the
timeout adjustment each branch applies before the wait loop. -/
def effTimeout (t : Int) (deflt : Int) : Int :=
  if t = 0 then deflt else t

/-- `create_cluster` lines 249-254: the entries added to `api_args` at the
top of the not-found handler.  `if params[cluster_id] is not None` is always
true — the argument spec declares `cluster_id` required, so it is modelled as
a plain `String`. -/
def notFoundCommonArgs (p : ClusterParams) (apiArgs : Dict) : Dict :=
  insOpt
    (insOpt (dictInsert apiArgs "DBClusterIdentifier" (Val.str p.cluster_id))
      "Engine" Val.str p.engine)
    "DBSubnetGroupName" Val.str p.subnet_group

/-- `create_cluster` line 259: the request of the
`restore_db_cluster_from_snapshot` call. -/
def restoreRequestArgs (p : ClusterParams) (apiArgs : Dict) (arn : String) : Dict :=
  dictInsert (notFoundCommonArgs p apiArgs) "SnapshotIdentifier" (Val.str arn)

/-- `create_cluster` lines 266-269: the request of the `create_db_cluster`
call, with the credentials added when supplied. -/
def createRequestArgs (p : ClusterParams) (apiArgs : Dict) : Dict :=
  insOpt
    (insOpt (notFoundCommonArgs p apiArgs) "MasterUsername" Val.str p.master_username)
    "MasterUserPassword" Val.str p.master_password

/-- `create_cluster` lines 247-275: the `DBClusterNotFoundFault` handler.
Receives `api_args` as it stood when the exception was raised, adds the
identifier / engine / subnet-group entries, and issues exactly one creation
call: `restore_db_cluster_from_snapshot` when a snapshot ARN is supplied
(with the snapshot identifier added and the 3600-second default timeout),
otherwise `create_db_cluster` (with the credentials added when supplied and
the 600-second default timeout).  A `ClientError` or `BotoServerError` from
the creation call is fatal (`fail_json`). -/
def notFoundBranch (p : ClusterParams) (apiArgs : Dict) (tr : List Call)
    (restoreRes createRes : Except RemoteErr Dict) : List Call × Exit :=
  match p.snapshot_arn with
  | some arn =>
      let a₃ := restoreRequestArgs p apiArgs arn
      match restoreRes with
      | .ok r =>
          (tr ++ [Call.restoreDBClusterFromSnapshot a₃],
            .proceedWait (.apiResponse r) (effTimeout p.wait_timeout 3600))
      | .error (.clientError e) =>
          (tr ++ [Call.restoreDBClusterFromSnapshot a₃], .failed (errMsg (.clientError e)))
      | .error (.botoServerError m) =>
          (tr ++ [Call.restoreDBClusterFromSnapshot a₃], .failed (errMsg (.botoServerError m)))
      | .error e =>
          (tr ++ [Call.restoreDBClusterFromSnapshot a₃], .uncaught e)
  | none =>
      let a₄ := createRequestArgs p apiArgs
      match createRes with
      | .ok r =>
          (tr ++ [Call.createDBCluster a₄],
            .proceedWait (.apiResponse r) (effTimeout p.wait_timeout 600))
      | .error (.clientError e) =>
          (tr ++ [Call.createDBCluster a₄], .failed (errMsg (.clientError e)))
      | .error (.botoServerError m) =>
          (tr ++ [Call.createDBCluster a₄], .failed (errMsg (.botoServerError m)))
      | .error e =>
          (tr ++ [Call.createDBCluster a₄], .uncaught e)

/-- `create_cluster` lines 246-277: the outer `except` clause.  Only
`botocore.exceptions.ClientError` is caught; its code selects the
not-found branch, every other code is fatal, and any other exception class
escapes the function. -/
def handleOuterErr (p : ClusterParams) (apiArgs : Dict) (tr : List Call)
    (e : RemoteErr) (restoreRes createRes : Except RemoteErr Dict) :
    List Call × Exit :=
  match e with
  | .clientError ce =>
      if ce.code = "DBClusterNotFoundFault" then
        notFoundBranch p apiArgs tr restoreRes createRes
      else
        (tr, .failed (errMsg (.clientError ce)))
  | e => (tr, .uncaught e)

/-- `create_cluster` lines 200-277, the phase before the optional wait loop.
The environment supplies the results of the describe, modify, restore and
create calls; the function returns the calls issued in order and the exit
condition.  When the cluster exists, line 225 writes the
`DBClusterParameterGroupName` alias into the observed cluster dictionary in
place before the diff, and an empty plan returns that (mutated) dictionary
as `dict(DBCluster=cluster)`.  A failing modify flows to the same outer
`except` clause as a failing describe. -/
def createClusterPre (p : ClusterParams)
    (describeRes : Except RemoteErr (Option (List Dict)))
    (modifyRes : Except RemoteErr Dict)
    (restoreRes : Except RemoteErr Dict)
    (createRes : Except RemoteErr Dict) : List Call × Exit :=
  let describeCall := Call.describeDBClusters p.cluster_id
  match describeRes with
  | .error e => handleOuterErr p (baseApiArgs p) [describeCall] e restoreRes createRes
  | .ok none => ([describeCall], .failed "Failed to retrieve details for existing cluster")
  | .ok (some cs) =>
      match cs with
      | [c] =>
          match dictGet c "DBClusterParameterGroup" with
          | none => ([describeCall], .pyError "KeyError: DBClusterParameterGroup")
          | some pg =>
              let cluster := dictInsert c "DBClusterParameterGroupName" pg
              match buildModifyArgs cluster (clusterApiArgsExisting p) with
              | .error msg => ([describeCall], .pyError msg)
              | .ok [] =>
                  ([describeCall],
                    .proceedWait (.dbCluster cluster) (effTimeout p.wait_timeout 600))
              | .ok (m :: ms) =>
                  match modifyRes with
                  | .ok r =>
                      ([describeCall, Call.modifyDBCluster p.cluster_id (m :: ms)],
                        .proceedWait (.apiResponse r) (effTimeout p.wait_timeout 600))
                  | .error e =>
                      handleOuterErr p (clusterApiArgsExisting p)
                        [describeCall, Call.modifyDBCluster p.cluster_id (m :: ms)]
                        e restoreRes createRes
      | _ => ([describeCall], .failed "Failed to retrieve details for existing cluster")

/-- The value passed as `MasterUserPassword` by `update_password`: the raw
parameter, which may be Python `None` when the option was not supplied. -/
def passwordVal : Option String → Val
  | some s => Val.str s
  | none => Val.pyNone

/-- `update_password` lines 139-144, the phase before its poll loop: one
`modify_db_cluster` call whose keyword arguments besides the identifier are
exactly `ApplyImmediately=True` and `MasterUserPassword`, followed by a fixed
`time.sleep(120)` settle interval and the 600-second default timeout
adjustment.  The modify call is not wrapped in any `try`, so a failure
escapes the function. -/
def updatePasswordPre (p : ClusterParams) (modifyRes : Except RemoteErr Dict) :
    List Call × Exit :=
  let args := dictInsert (dictInsert [] "ApplyImmediately" (Val.bool true))
    "MasterUserPassword" (passwordVal p.master_password)
  match modifyRes with
  | .error e => ([Call.modifyDBCluster p.cluster_id args], .uncaught e)
  | .ok r =>
      ([Call.modifyDBCluster p.cluster_id args, Call.sleep 120],
        .proceedWait (.apiResponse r) (effTimeout p.wait_timeout 600))

/-- `terminate_cluster` lines 182-198.  Any `ClientError` raised inside the
`try` block — from the describe or from the delete — is caught and turns the
invocation into `exit_json(result=True)`; a successful delete is followed by
a fixed 300-second sleep.  When the describe succeeds but does not report
exactly one cluster, no delete is attempted and `result` is unbound at
`exit_json` (a Python `NameError`).  Python truthiness makes an empty final
snapshot identifier behave like `None`. -/
def terminateCluster (p : ClusterParams)
    (describeRes : Except RemoteErr (Option (List Dict)))
    (deleteRes : Except RemoteErr Dict) : List Call × Exit :=
  let describeCall := Call.describeDBClusters p.cluster_id
  match describeRes with
  | .error (.clientError _) => ([describeCall], .exited .pyTrue)
  | .error e => ([describeCall], .uncaught e)
  | .ok check =>
      match check with
      | some [_] =>
          let d₀ := dictInsert [] "SkipFinalSnapshot" (Val.bool true)
          let delArgs :=
            match p.final_db_cluster_snapshot_identifier with
            | some snap =>
                if snap = "" then d₀
                else
                  dictInsert (dictInsert d₀ "SkipFinalSnapshot" (Val.bool false))
                    "FinalDBSnapshotIdentifier" (Val.str snap)
            | none => d₀
          match deleteRes with
          | .ok r =>
              ([describeCall, Call.deleteDBCluster p.cluster_id delArgs, Call.sleep 300],
                .exited (.apiResponse r))
          | .error (.clientError _) =>
              ([describeCall, Call.deleteDBCluster p.cluster_id delArgs], .exited .pyTrue)
          | .error e =>
              ([describeCall, Call.deleteDBCluster p.cluster_id delArgs], .uncaught e)
      | _ => ([describeCall], .pyError "NameError: result")

/-- The operation `main` dispatches to (lines 339-346). -/
inductive ClusterAction where
  | updatePasswordAction
  | createClusterAction
  | terminateClusterAction
  | startClusterAction
  | fallThrough
deriving DecidableEq, Repr

/-- `docdb_cluster.main` lines 339-346: the force-password flag is examined
first and wins over every `state` value; otherwise `state` selects the
operation. -/
def mainDispatch (p : ClusterParams) : ClusterAction :=
  if p.force_update_password = some true then .updatePasswordAction
  else if p.state = "present" then .createClusterAction
  else if p.state = "absent" then .terminateClusterAction
  else if p.state = "running" then .startClusterAction
  else .fallThrough

end Docdb

namespace Docdb

/-- The module parameters of `docdb_instance.py` (`module_args` in `main`).
`instance_id` is required; `tags` defaults to the empty dictionary (not to
`None`) and `wait_timeout` defaults to `1200`. -/
structure InstanceParams where
  availability_zone : Option String
  cluster_id : Option String
  engine : Option String
  instance_id : String
  instance_type : Option String
  preferred_maintenance_window : Option String
  state : String
  tags : Option (List (String × String))
  wait : Bool
  wait_timeout : Int
deriving DecidableEq, Repr

/-- `create_db_instance` lines 137-144: the `api_args` dictionary built from
the optional attributes. -/
def instanceApiArgs (p : InstanceParams) : Dict :=
  insOpt
    (insOpt
      (insOpt [] "DBInstanceClass" Val.str p.instance_type)
      "AvailabilityZone" Val.str p.availability_zone)
    "PreferredMaintenanceWindow" Val.str p.preferred_maintenance_window

/-- `create_db_instance` lines 175-195: the outer `except` clauses.  A
`ClientError` coded `DBInstanceNotFound` selects the creation branch, which
adds the identifier, cluster membership, engine and tags to `api_args` as it
stood when the exception was raised and issues one `create_db_instance`
call (whose own `ClientError` or `BotoServerError` is fatal); any other
`ClientError` code is fatal, and — unlike the cluster module — an outer
`BotoServerError` is also caught and fatal. -/
def instOuterErr (p : InstanceParams) (apiArgs : Dict)
    (tags : Option (List (String × String))) (tr : List Call) (e : RemoteErr)
    (createRes : Except RemoteErr Dict) : List Call × Exit :=
  match e with
  | .clientError ce =>
      if ce.code = "DBInstanceNotFound" then
        let a₀ := dictInsert apiArgs "DBInstanceIdentifier" (Val.str p.instance_id)
        let a₁ := insOpt a₀ "DBClusterIdentifier" Val.str p.cluster_id
        let a₂ := insOpt a₁ "Engine" Val.str p.engine
        let a₃ := match tags with
          | some ts => dictInsert a₂ "Tags" (Val.tagList ts)
          | none => a₂
        match createRes with
        | .ok r => (tr ++ [Call.createDBInstance a₃], .proceedWait (.apiResponse r) p.wait_timeout)
        | .error (.clientError e₂) =>
            (tr ++ [Call.createDBInstance a₃], .failed (errMsg (.clientError e₂)))
        | .error (.botoServerError m) =>
            (tr ++ [Call.createDBInstance a₃], .failed (errMsg (.botoServerError m)))
        | .error e₂ => (tr ++ [Call.createDBInstance a₃], .uncaught e₂)
      else
        (tr, .failed (errMsg (.clientError ce)))
  | .botoServerError m => (tr, .failed (errMsg (.botoServerError m)))
  | e => (tr, .uncaught e)

/-- `create_db_instance` lines 135-195, the phase before the optional wait
loop.  On an existing instance `modify_args` is built empty (line 158 creates
it and nothing ever adds to it), so the observed description is returned
verbatim; tags are then unconditionally reconciled: one
`list_tags_for_resource`, one `remove_tags_from_resource` with every
currently listed key, and — when the desired tags are not `None` — one
`add_tags_to_resource` with the full desired set, in that order.  Each of
these calls may raise into the outer `except` clauses. -/
def createDbInstancePre (p : InstanceParams)
    (describeRes : Except RemoteErr (Option (List Dict)))
    (listTagsRes : Except RemoteErr (Option (List (String × String))))
    (removeRes : Except RemoteErr Unit)
    (addRes : Except RemoteErr Unit)
    (createRes : Except RemoteErr Dict) : List Call × Exit :=
  let api₀ := instanceApiArgs p
  let describeCall := Call.describeDBInstances p.instance_id
  match describeRes with
  | .error e => instOuterErr p api₀ p.tags [describeCall] e createRes
  | .ok none =>
      ([describeCall], .failed "Failed to retrieve details for existing database instance")
  | .ok (some cs) =>
      match cs with
      | [inst] =>
          match dictGet inst "DBInstanceArn" with
          | some (Val.str arn) =>
              match listTagsRes with
              | .error e =>
                  instOuterErr p api₀ p.tags
                    [describeCall, Call.listTagsForResource arn] e createRes
              | .ok none =>
                  ([describeCall, Call.listTagsForResource arn],
                    .proceedWait (.dbInstance inst) p.wait_timeout)
              | .ok (some cur) =>
                  let tr₁ := [describeCall, Call.listTagsForResource arn,
                    Call.removeTagsFromResource arn (cur.map Prod.fst)]
                  match removeRes with
                  | .error e => instOuterErr p api₀ p.tags tr₁ e createRes
                  | .ok _ =>
                      match p.tags with
                      | none => (tr₁, .proceedWait (.dbInstance inst) p.wait_timeout)
                      | some ts =>
                          let api₁ := dictInsert api₀ "Tags" (Val.tagList ts)
                          let tr₂ := tr₁ ++ [Call.addTagsToResource arn ts]
                          match addRes with
                          | .error e => instOuterErr p api₁ p.tags tr₂ e createRes
                          | .ok _ => (tr₂, .proceedWait (.dbInstance inst) p.wait_timeout)
          | some _ => ([describeCall], .pyError "TypeError: DBInstanceArn")
          | none => ([describeCall], .pyError "KeyError: DBInstanceArn")
      | _ =>
          ([describeCall], .failed "Failed to retrieve details for existing database instance")

/-- `terminate_db_instance` lines 120-133.  Any `ClientError` raised inside
the `try` block — from the describe, the delete, or the
`db_instance_deleted` waiter — is caught and turns the invocation into
`exit_json(result=True)`; a botocore `WaiterError` is not a `ClientError`
and escapes.  When the describe succeeds but does not report exactly one
instance, `result` is unbound at `exit_json` (a Python `NameError`). -/
def terminateDbInstance (p : InstanceParams)
    (describeRes : Except RemoteErr (Option (List Dict)))
    (deleteRes : Except RemoteErr Dict)
    (waiterRes : Except RemoteErr Unit) : List Call × Exit :=
  let describeCall := Call.describeDBInstances p.instance_id
  match describeRes with
  | .error (.clientError _) => ([describeCall], .exited .pyTrue)
  | .error e => ([describeCall], .uncaught e)
  | .ok check =>
      match check with
      | some [_] =>
          let tr₁ := [describeCall, Call.deleteDBInstance p.instance_id []]
          match deleteRes with
          | .error (.clientError _) => (tr₁, .exited .pyTrue)
          | .error e => (tr₁, .uncaught e)
          | .ok r =>
              let tr₂ := tr₁ ++ [Call.waiterWait "db_instance_deleted" p.instance_id]
              match waiterRes with
              | .ok _ => (tr₂, .exited (.apiResponse r))
              | .error (.clientError _) => (tr₂, .exited .pyTrue)
              | .error e => (tr₂, .uncaught e)
      | _ => ([describeCall], .pyError "NameError: result")

/-- Python's `str.lower()` (ASCII case folding, as applied to AWS status
strings), written so that it evaluates by reduction. -/
def pyLower (s : String) : String :=
  String.mk (s.data.map Char.toLower)

/-- The effect of one iteration of a wait loop on control flow. -/
inductive PollIterResult where
  /-- The status predicate held; the loop exits ready. -/
  | ready
  /-- Not ready (status not available, malformed-but-guarded response, or a
  swallowed exception): the loop sleeps 5 seconds and re-enters. -/
  | continueSleep
  /-- A Python-level error escaped the iteration. -/
  | pyCrash (msg : String)
  /-- An exception class outside the `except` tuple escaped the iteration. -/
  | uncaughtErr (e : RemoteErr)
deriving DecidableEq, Repr

/-- `create_cluster` lines 282-293: one iteration of the cluster wait loop.
The `except (ClientError, BotoServerError)` clause swallows every error of
either class — whatever its code — with `pass`, so the iteration just
sleeps and continues. -/
def clusterPollIter (res : Except RemoteErr (Option (List Dict))) : PollIterResult :=
  match res with
  | .error (.clientError _) => .continueSleep
  | .error (.botoServerError _) => .continueSleep
  | .error e => .uncaughtErr e
  | .ok none => .continueSleep
  | .ok (some cs) =>
      match cs with
      | [c] =>
          match dictGet c "Status" with
          | some (Val.str s) => if pyLower s = "available" then .ready else .continueSleep
          | some _ => .pyCrash "AttributeError: lower"
          | none => .pyCrash "KeyError: Status"
      | _ => .continueSleep

/-- `create_db_instance` lines 200-211: one iteration of the instance wait
loop; same shape as the cluster loop with `DBInstances` / `DBInstanceStatus`. -/
def instancePollIter (res : Except RemoteErr (Option (List Dict))) : PollIterResult :=
  match res with
  | .error (.clientError _) => .continueSleep
  | .error (.botoServerError _) => .continueSleep
  | .error e => .uncaughtErr e
  | .ok none => .continueSleep
  | .ok (some cs) =>
      match cs with
      | [inst] =>
          match dictGet inst "DBInstanceStatus" with
          | some (Val.str s) => if pyLower s = "available" then .ready else .continueSleep
          | some _ => .pyCrash "AttributeError: lower"
          | none => .pyCrash "KeyError: Status"
      | _ => .continueSleep

/-- The terminal result of a whole wait loop. -/
inductive PollOutcome where
  | ready
  | timedOut
  | crashed (r : PollIterResult)
deriving DecidableEq, Repr

/-- The cluster wait loop, with wall-clock time abstracted into fuel: each
iteration consumes one unit (one 5-second sleep) and reads the next describe
result from the stream; exhausted fuel is the elapsed deadline. -/
def clusterPollLoop (responses : Nat → Except RemoteErr (Option (List Dict))) :
    Nat → Nat → PollOutcome
  | 0, _ => .timedOut
  | fuel + 1, k =>
      match clusterPollIter (responses k) with
      | .ready => .ready
      | .continueSleep => clusterPollLoop responses fuel (k + 1)
      | r => .crashed r

end Docdb

namespace Docdb

theorem baseApiArgs_get_none (p : ClusterParams) (k : String)
    (h₁ : k ≠ "AvailabilityZones") (h₂ : k ≠ "EngineVersion") (h₃ : k ≠ "Port")
    (h₄ : k ≠ "VpcSecurityGroupIds") (h₅ : k ≠ "Tags") :
    dictGet (baseApiArgs p) k = none := by
  unfold baseApiArgs
  rw [dictGet_insOpt_ne _ _ _ _ _ h₅, dictGet_insOpt_ne _ _ _ _ _ h₄,
      dictGet_insOpt_ne _ _ _ _ _ h₃, dictGet_insOpt_ne _ _ _ _ _ h₂,
      dictGet_insOpt_ne _ _ _ _ _ h₁]
  rfl

theorem clusterApiArgsExisting_get_none (p : ClusterParams) (k : String)
    (h₁ : k ≠ "AvailabilityZones") (h₂ : k ≠ "EngineVersion") (h₃ : k ≠ "Port")
    (h₄ : k ≠ "VpcSecurityGroupIds") (h₅ : k ≠ "Tags")
    (h₆ : k ≠ "DBClusterParameterGroupName") :
    dictGet (clusterApiArgsExisting p) k = none := by
  unfold clusterApiArgsExisting
  rw [dictGet_insOpt_ne _ _ _ _ _ h₆]
  exact baseApiArgs_get_none p k h₁ h₂ h₃ h₄ h₅

/-- Python's `sorted` depends only on the multiset of elements. -/
theorem sortedStrings_eq_of_perm {l₁ l₂ : List String} (h : l₁.Perm l₂) :
    sortedStrings l₁ = sortedStrings l₂ :=
  List.eq_of_perm_of_sorted
    ((List.perm_insertionSort _ l₁).trans (h.trans (List.perm_insertionSort _ l₂).symm))
    (List.sorted_insertionSort _ l₁) (List.sorted_insertionSort _ l₂)

theorem sgChanged_eq_false_of_perm {l₁ l₂ : List String} (h : l₁.Perm l₂) :
    sgChanged l₁ l₂ = false := by
  simp [sgChanged, sortedStrings_eq_of_perm h]

theorem entryDecision_tags (cluster : Dict) (val : Val) :
    entryDecision cluster "Tags" val = .ok false := by
  simp [entryDecision]

/-- Every entry of the computed `modify_args` comes from `api_args`. -/
theorem buildModifyArgs_sublist (cluster : Dict) :
    ∀ (args m : Dict), buildModifyArgs cluster args = .ok m → m.Sublist args := by
  intro args
  induction args with
  | nil =>
      intro m h
      simp only [buildModifyArgs] at h
      cases h
      exact List.Sublist.refl []
  | cons hd rest ih =>
      obtain ⟨opt, val⟩ := hd
      intro m h
      simp only [buildModifyArgs] at h
      cases hd₂ : entryDecision cluster opt val with
      | error msg => rw [hd₂] at h; cases h
      | ok keep =>
          rw [hd₂] at h
          cases hrec : buildModifyArgs cluster rest with
          | error msg => rw [hrec] at h; cases h
          | ok m₀ =>
              rw [hrec] at h
              simp only [Except.map] at h
              cases keep
              · cases h
                exact (ih m₀ hrec).cons _
              · cases h
                exact (ih m₀ hrec).cons₂ _

/-- The computed `modify_args` never contains a `Tags` entry. -/
theorem buildModifyArgs_tags_none (cluster : Dict) :
    ∀ (args m : Dict), buildModifyArgs cluster args = .ok m →
      dictGet m "Tags" = none := by
  intro args
  induction args with
  | nil =>
      intro m h
      simp only [buildModifyArgs] at h
      cases h
      rfl
  | cons hd rest ih =>
      obtain ⟨opt, val⟩ := hd
      intro m h
      simp only [buildModifyArgs] at h
      cases hd₂ : entryDecision cluster opt val with
      | error msg => rw [hd₂] at h; cases h
      | ok keep =>
          rw [hd₂] at h
          cases hrec : buildModifyArgs cluster rest with
          | error msg => rw [hrec] at h; cases h
          | ok m₀ =>
              rw [hrec] at h
              simp only [Except.map] at h
              cases keep
              · cases h
                exact ih m₀ hrec
              · cases h
                by_cases hopt : opt = "Tags"
                · subst hopt
                  rw [entryDecision_tags] at hd₂
                  cases hd₂
                · simp only [dictGet, if_neg hopt]
                  exact ih m₀ hrec

theorem dictGet_none_of_sublist {m args : Dict} (h : m.Sublist args) {k : String}
    (hk : dictGet args k = none) : dictGet m k = none := by
  rw [dictGet_eq_none_iff] at hk ⊢
  exact fun hm => hk ((h.map Prod.fst).subset hm)

/-- A security-group entry whose desired membership is a permutation of the
observed membership contributes nothing to the computed `modify_args`. -/
theorem buildModifyArgs_sg_perm (cluster : Dict) (gs : List SecurityGroupMembership)
    (ids : List String) (rest : Dict)
    (hc : dictGet cluster "VpcSecurityGroups" = some (Val.sgList gs))
    (hperm : (gs.map (fun g => g.vpcSecurityGroupId)).Perm ids) :
    buildModifyArgs cluster (("VpcSecurityGroupIds", Val.strList ids) :: rest) =
      buildModifyArgs cluster rest := by
  simp only [buildModifyArgs, entryDecision, if_pos rfl, hc,
    sgChanged_eq_false_of_perm hperm]
  cases hrec : buildModifyArgs cluster rest <;> simp [Except.map]

theorem notFoundBranch_modify_mem (p : ClusterParams) (apiArgs : Dict) (tr : List Call)
    (restoreRes createRes : Except RemoteErr Dict) (id : String) (args : Dict)
    (h : Call.modifyDBCluster id args ∈ (notFoundBranch p apiArgs tr restoreRes createRes).1) :
    Call.modifyDBCluster id args ∈ tr := by
  unfold notFoundBranch at h
  cases hsnap : p.snapshot_arn with
  | some arn =>
      rw [hsnap] at h
      cases restoreRes with
      | ok r => simpa using h
      | error e => cases e <;> simpa using h
  | none =>
      rw [hsnap] at h
      cases createRes with
      | ok r => simpa using h
      | error e => cases e <;> simpa using h

theorem handleOuterErr_modify_mem (p : ClusterParams) (apiArgs : Dict) (tr : List Call)
    (e : RemoteErr) (restoreRes createRes : Except RemoteErr Dict) (id : String) (args : Dict)
    (h : Call.modifyDBCluster id args ∈ (handleOuterErr p apiArgs tr e restoreRes createRes).1) :
    Call.modifyDBCluster id args ∈ tr := by
  cases e with
  | clientError ce =>
      by_cases hc : ce.code = "DBClusterNotFoundFault"
      · simp only [handleOuterErr, if_pos hc] at h
        exact notFoundBranch_modify_mem _ _ _ _ _ _ _ h
      · simp only [handleOuterErr, if_neg hc] at h
        exact h
  | botoServerError m => simpa only [handleOuterErr] using h
  | waiterFailure m => simpa only [handleOuterErr] using h

end Docdb

namespace Docdb

/-- Claim C1: when the initial describe reports the cluster absent
(`DBClusterNotFoundFault`), exactly one creation call is issued — the restore
operation when a snapshot reference is supplied, the create operation
otherwise.  The create request carries the master username and password when
supplied and omits the snapshot field; the restore request is issued by the
restore operation exclusively (no create call appears in the trace) and
carries the snapshot identifier but no credential fields. -/
theorem C1_notfound_exactly_one_creation (p : ClusterParams)
    (mR rR cR : Except RemoteErr Dict) :
    (∀ arn, p.snapshot_arn = some arn →
      (createClusterPre p (.error (.clientError ⟨"DBClusterNotFoundFault"⟩)) mR rR cR).1 =
        [Call.describeDBClusters p.cluster_id,
         Call.restoreDBClusterFromSnapshot (restoreRequestArgs p (baseApiArgs p) arn)] ∧
      dictGet (restoreRequestArgs p (baseApiArgs p) arn) "SnapshotIdentifier" =
        some (Val.str arn) ∧
      dictGet (restoreRequestArgs p (baseApiArgs p) arn) "MasterUsername" = none ∧
      dictGet (restoreRequestArgs p (baseApiArgs p) arn) "MasterUserPassword" = none) ∧
    (p.snapshot_arn = none →
      (createClusterPre p (.error (.clientError ⟨"DBClusterNotFoundFault"⟩)) mR rR cR).1 =
        [Call.describeDBClusters p.cluster_id,
         Call.createDBCluster (createRequestArgs p (baseApiArgs p))] ∧
      dictGet (createRequestArgs p (baseApiArgs p)) "SnapshotIdentifier" = none ∧
      (∀ u, p.master_username = some u →
        dictGet (createRequestArgs p (baseApiArgs p)) "MasterUsername" = some (Val.str u)) ∧
      (∀ w, p.master_password = some w →
        dictGet (createRequestArgs p (baseApiArgs p)) "MasterUserPassword" = some (Val.str w))) := by
  constructor
  · intro arn hs
    refine ⟨?_, ?_, ?_, ?_⟩
    · cases rR with
      | ok r => simp [createClusterPre, handleOuterErr, notFoundBranch, hs]
      | error e => cases e <;> simp [createClusterPre, handleOuterErr, notFoundBranch, hs]
    · simp [restoreRequestArgs, dictGet_dictInsert]
    · simp [restoreRequestArgs, notFoundCommonArgs, dictGet_dictInsert,
        dictGet_insOpt_ne, baseApiArgs_get_none]
    · simp [restoreRequestArgs, notFoundCommonArgs, dictGet_dictInsert,
        dictGet_insOpt_ne, baseApiArgs_get_none]
  · intro hs
    refine ⟨?_, ?_, ?_, ?_⟩
    · cases cR with
      | ok r => simp [createClusterPre, handleOuterErr, notFoundBranch, hs]
      | error e => cases e <;> simp [createClusterPre, handleOuterErr, notFoundBranch, hs]
    · simp [createRequestArgs, notFoundCommonArgs, dictGet_dictInsert,
        dictGet_insOpt_ne, baseApiArgs_get_none]
    · intro u hu
      rw [createRequestArgs, dictGet_insOpt_ne _ _ _ _ _ (by decide)]
      exact dictGet_insOpt_some _ _ _ hu
    · intro w hw
      rw [createRequestArgs]
      exact dictGet_insOpt_some _ _ _ hw

/-- Sample parameters: restore a cluster from a snapshot. -/
def sampleRestoreParams : ClusterParams :=
  ⟨none, "c1", some "docdb", none, none, none, none, none, some "arn:snap-1", none,
    "present", some "sg1", none, none, false, 0, none⟩

/-- Sample parameters: create a new cluster with credentials. -/
def sampleCreateParams : ClusterParams :=
  ⟨none, "c1", some "docdb", none, none, some "admin", some "pw", none, none, none,
    "present", some "sg1", none, none, false, 0, none⟩

theorem C1_witness :
    ((createClusterPre sampleRestoreParams
        (.error (.clientError ⟨"DBClusterNotFoundFault"⟩)) (.ok []) (.ok []) (.ok [])).1 =
      [Call.describeDBClusters "c1",
       Call.restoreDBClusterFromSnapshot
         (restoreRequestArgs sampleRestoreParams (baseApiArgs sampleRestoreParams) "arn:snap-1")] ∧
     dictGet (restoreRequestArgs sampleRestoreParams (baseApiArgs sampleRestoreParams)
       "arn:snap-1") "MasterUsername" = none) ∧
    ((createClusterPre sampleCreateParams
        (.error (.clientError ⟨"DBClusterNotFoundFault"⟩)) (.ok []) (.ok []) (.ok [])).1 =
      [Call.describeDBClusters "c1",
       Call.createDBCluster (createRequestArgs sampleCreateParams (baseApiArgs sampleCreateParams))] ∧
     dictGet (createRequestArgs sampleCreateParams (baseApiArgs sampleCreateParams))
       "SnapshotIdentifier" = none ∧
     dictGet (createRequestArgs sampleCreateParams (baseApiArgs sampleCreateParams))
       "MasterUsername" = some (Val.str "admin")) :=
  ⟨⟨((C1_notfound_exactly_one_creation sampleRestoreParams (.ok []) (.ok []) (.ok [])).1
        "arn:snap-1" rfl).1,
    ((C1_notfound_exactly_one_creation sampleRestoreParams (.ok []) (.ok []) (.ok [])).1
        "arn:snap-1" rfl).2.2.1⟩,
   ⟨((C1_notfound_exactly_one_creation sampleCreateParams (.ok []) (.ok []) (.ok [])).2 rfl).1,
    ((C1_notfound_exactly_one_creation sampleCreateParams (.ok []) (.ok []) (.ok [])).2 rfl).2.1,
    ((C1_notfound_exactly_one_creation sampleCreateParams (.ok []) (.ok []) (.ok [])).2 rfl).2.2.1
        "admin" rfl⟩⟩

/-- Claim C2: a cluster converge invocation never issues a tag-modify call —
every `modify_db_cluster` request appearing in the trace of `create_cluster`
has no `Tags` entry, for any combination of observed and desired tags. -/
theorem C2_no_cluster_tag_modify (p : ClusterParams)
    (dR : Except RemoteErr (Option (List Dict))) (mR rR cR : Except RemoteErr Dict)
    (id : String) (args : Dict)
    (h : Call.modifyDBCluster id args ∈ (createClusterPre p dR mR rR cR).1) :
    dictGet args "Tags" = none := by
  cases dR with
  | error e =>
      simp only [createClusterPre] at h
      have h₂ := handleOuterErr_modify_mem _ _ _ _ _ _ _ _ h
      simp at h₂
  | ok o =>
      cases o with
      | none => simp [createClusterPre] at h
      | some cs =>
          match cs with
          | [] => simp [createClusterPre] at h
          | c :: c₂ :: crest => simp [createClusterPre] at h
          | [c] =>
            cases hpg : dictGet c "DBClusterParameterGroup" with
            | none => simp [createClusterPre, hpg] at h
            | some pg =>
                simp only [createClusterPre, hpg] at h
                cases hb : buildModifyArgs (dictInsert c "DBClusterParameterGroupName" pg)
                    (clusterApiArgsExisting p) with
                | error msg => rw [hb] at h; simp at h
                | ok m =>
                    rw [hb] at h
                    match m with
                    | [] => simp at h
                    | m₀ :: ms =>
                        cases mR with
                        | ok r =>
                            simp at h
                            obtain ⟨-, rfl⟩ := h
                            exact buildModifyArgs_tags_none _ _ _ hb
                        | error e =>
                            have h₂ := handleOuterErr_modify_mem _ _ _ _ _ _ _ _ h
                            simp at h₂
                            obtain ⟨-, rfl⟩ := h₂
                            exact buildModifyArgs_tags_none _ _ _ hb

/-- Sample parameters: converge an existing cluster to a new engine version,
with desired tags supplied (which must still never reach a modify request). -/
def sampleModifyParams : ClusterParams :=
  ⟨none, "c1", some "docdb", some "4.0.0", none, none, none, none, none, none,
    "present", none, some [("Env", "prod")], none, false, 0, none⟩

/-- An observed cluster description for the modify scenario. -/
def sampleObservedCluster : Dict :=
  [("DBClusterParameterGroup", Val.str "default"), ("EngineVersion", Val.str "3.6.0"),
   ("Status", Val.str "available")]

theorem C2_witness :
    Call.modifyDBCluster "c1" [("EngineVersion", Val.str "4.0.0")] ∈
      (createClusterPre sampleModifyParams (.ok (some [sampleObservedCluster]))
        (.ok []) (.ok []) (.ok [])).1 ∧
    dictGet [("EngineVersion", Val.str "4.0.0")] "Tags" = none :=
  ⟨by decide,
   C2_no_cluster_tag_modify sampleModifyParams (.ok (some [sampleObservedCluster]))
     (.ok []) (.ok []) (.ok []) "c1" [("EngineVersion", Val.str "4.0.0")] (by decide)⟩

end Docdb

namespace Docdb

/-- Claim C9: the cluster differ treats security-group membership as an
unordered collection — whenever the desired identifier list is a permutation
of the observed membership, the security-group comparison reports no change
and the entry contributes nothing to the computed modification request,
wherever it sits in `api_args`. -/
theorem C9_sg_order_insensitive (cluster : Dict) (gs : List SecurityGroupMembership)
    (ids : List String) (rest : Dict)
    (hc : dictGet cluster "VpcSecurityGroups" = some (Val.sgList gs))
    (hperm : (gs.map (fun g => g.vpcSecurityGroupId)).Perm ids) :
    sgChanged (gs.map (fun g => g.vpcSecurityGroupId)) ids = false ∧
    buildModifyArgs cluster (("VpcSecurityGroupIds", Val.strList ids) :: rest) =
      buildModifyArgs cluster rest :=
  ⟨sgChanged_eq_false_of_perm hperm, buildModifyArgs_sg_perm cluster gs ids rest hc hperm⟩

/-- An observed cluster whose security groups are listed as sg-b then sg-a. -/
def sampleSgCluster : Dict :=
  [("VpcSecurityGroups",
    Val.sgList [⟨"sg-b", "active"⟩, ⟨"sg-a", "active"⟩])]

theorem C9_witness :
    sgChanged
        (List.map (fun g => g.vpcSecurityGroupId)
          [(⟨"sg-b", "active"⟩ : SecurityGroupMembership), ⟨"sg-a", "active"⟩])
        ["sg-a", "sg-b"] = false ∧
    buildModifyArgs sampleSgCluster
        [("VpcSecurityGroupIds", Val.strList ["sg-a", "sg-b"])] =
      buildModifyArgs sampleSgCluster [] :=
  C9_sg_order_insensitive sampleSgCluster
    [⟨"sg-b", "active"⟩, ⟨"sg-a", "active"⟩] ["sg-a", "sg-b"] []
    (by decide) (by decide)

/-- Claim C10: a desired attribute left unset never participates: the
computed modification request only draws on keys present in `api_args`, each
optional attribute left at `None` is absent from `api_args`, and a converge
of an existing cluster that supplies no optional attribute issues no modify
call at all — the trace is the single describe and the outcome returns the
observed description. -/
theorem C10_unset_attrs_excluded :
    (∀ (cluster args m : Dict) (k : String), buildModifyArgs cluster args = .ok m →
      dictGet args k = none → dictGet m k = none) ∧
    (∀ p : ClusterParams,
      (p.availability_zones = none →
        dictGet (clusterApiArgsExisting p) "AvailabilityZones" = none) ∧
      (p.engine_version = none →
        dictGet (clusterApiArgsExisting p) "EngineVersion" = none) ∧
      (p.port = none → dictGet (clusterApiArgsExisting p) "Port" = none) ∧
      (p.vpc_security_group_ids = none →
        dictGet (clusterApiArgsExisting p) "VpcSecurityGroupIds" = none) ∧
      (p.tags = none → dictGet (clusterApiArgsExisting p) "Tags" = none) ∧
      (p.cluster_parameter_group = none →
        dictGet (clusterApiArgsExisting p) "DBClusterParameterGroupName" = none)) ∧
    (∀ (p : ClusterParams) (c : Dict) (pg : Val) (mR rR cR : Except RemoteErr Dict),
      p.availability_zones = none → p.engine_version = none → p.port = none →
      p.vpc_security_group_ids = none → p.tags = none →
      p.cluster_parameter_group = none →
      dictGet c "DBClusterParameterGroup" = some pg →
      createClusterPre p (.ok (some [c])) mR rR cR =
        ([Call.describeDBClusters p.cluster_id],
          .proceedWait (.dbCluster (dictInsert c "DBClusterParameterGroupName" pg))
            (effTimeout p.wait_timeout 600))) := by
  refine ⟨?_, ?_, ?_⟩
  · intro cluster args m k hb hk
    exact dictGet_none_of_sublist (buildModifyArgs_sublist cluster args m hb) hk
  · intro p
    refine ⟨fun h => ?_, fun h => ?_, fun h => ?_, fun h => ?_, fun h => ?_, fun h => ?_⟩ <;>
      simp [clusterApiArgsExisting, baseApiArgs, dictGet_insOpt_ne, insOpt_none, h, dictGet]
  · intro p c pg mR rR cR h₁ h₂ h₃ h₄ h₅ h₆ hpg
    have hargs : clusterApiArgsExisting p = [] := by
      simp [clusterApiArgsExisting, baseApiArgs, h₁, h₂, h₃, h₄, h₅, h₆, insOpt_none]
    simp [createClusterPre, hpg, hargs, buildModifyArgs]

/-- Sample parameters: converge with no optional attribute supplied. -/
def sampleBareParams : ClusterParams :=
  ⟨none, "c1", some "docdb", none, none, none, none, none, none, none,
    "present", some "sg1", none, none, false, 0, none⟩

theorem C10_witness :
    dictGet [("EngineVersion", Val.str "4.0.0")] "Port" = none ∧
    createClusterPre sampleBareParams
        (.ok (some [[("DBClusterParameterGroup", Val.str "default")]]))
        (.ok []) (.ok []) (.ok []) =
      ([Call.describeDBClusters "c1"],
        .proceedWait
          (.dbCluster [("DBClusterParameterGroup", Val.str "default"),
            ("DBClusterParameterGroupName", Val.str "default")]) 600) :=
  ⟨C10_unset_attrs_excluded.1 [("EngineVersion", Val.str "3.6.0")]
      [("EngineVersion", Val.str "4.0.0")] [("EngineVersion", Val.str "4.0.0")] "Port"
      rfl rfl,
   C10_unset_attrs_excluded.2.2 sampleBareParams
      [("DBClusterParameterGroup", Val.str "default")] (Val.str "default")
      (.ok []) (.ok []) (.ok []) rfl rfl rfl rfl rfl rfl (by decide)⟩

end Docdb

namespace Docdb

/-- Claim C3: with the force-update-password flag set, `main` dispatches to
`update_password` no matter what `state` holds or whether the cluster
exists; that path issues exactly one modify call whose keyword arguments
besides the identifier are `ApplyImmediately=True` and the master password,
then sleeps the fixed 120-second settle interval before reaching the poll
with the 600-second default timeout.  No describe, create or restore call
appears, so the path never performs the attribute diff nor enters the
create/restore branch. -/
theorem C3_force_password_update (p : ClusterParams) (r : Dict)
    (h : p.force_update_password = some true) :
    mainDispatch p = .updatePasswordAction ∧
    (updatePasswordPre p (.ok r)).1 =
      [Call.modifyDBCluster p.cluster_id
        [("ApplyImmediately", Val.bool true),
         ("MasterUserPassword", passwordVal p.master_password)],
       Call.sleep 120] ∧
    (updatePasswordPre p (.ok r)).2 =
      .proceedWait (.apiResponse r) (effTimeout p.wait_timeout 600) ∧
    (∀ a, Call.createDBCluster a ∉ (updatePasswordPre p (.ok r)).1) ∧
    (∀ a, Call.restoreDBClusterFromSnapshot a ∉ (updatePasswordPre p (.ok r)).1) ∧
    (∀ i, Call.describeDBClusters i ∉ (updatePasswordPre p (.ok r)).1) := by
  refine ⟨?_, rfl, rfl, ?_, ?_, ?_⟩
  · simp [mainDispatch, h]
  all_goals intro x; simp [updatePasswordPre]

/-- Sample parameters: forced password update while state is present. -/
def sampleForceParams : ClusterParams :=
  ⟨none, "c1", some "docdb", none, some true, none, some "newpw", none, none, none,
    "present", none, none, none, false, 0, none⟩

theorem C3_witness :
    mainDispatch sampleForceParams = .updatePasswordAction ∧
    (updatePasswordPre sampleForceParams (.ok [])).1 =
      [Call.modifyDBCluster "c1"
        [("ApplyImmediately", Val.bool true), ("MasterUserPassword", Val.str "newpw")],
       Call.sleep 120] ∧
    (updatePasswordPre sampleForceParams (.ok [])).2 =
      .proceedWait (.apiResponse []) 600 :=
  ⟨(C3_force_password_update sampleForceParams [] rfl).1,
   (C3_force_password_update sampleForceParams [] rfl).2.1,
   (C3_force_password_update sampleForceParams [] rfl).2.2.1⟩

/-- Claim C4 as stated is false at this input: the first poll describe fails
with `AccessDenied` — an auth failure, a `Permanent` error in the spec's
taxonomy — yet the iteration swallows it exactly like a transient one
(`except (ClientError, BotoServerError): pass`), and the loop goes on to
report ready from the next describe instead of aborting. -/
theorem C4_counterexample :
    clusterPollIter (.error (.clientError ⟨"AccessDenied"⟩)) = .continueSleep ∧
    instancePollIter (.error (.clientError ⟨"AccessDenied"⟩)) = .continueSleep ∧
    clusterPollLoop
      (fun k => if k = 0 then .error (.clientError ⟨"AccessDenied"⟩)
                else .ok (some [[("Status", Val.str "available")]])) 2 0 = .ready := by
  refine ⟨rfl, rfl, ?_⟩
  rfl

/-- Claim C4 amended: every `ClientError` raised by the status-checking
describe — Transient or Permanent alike — is swallowed and treated as "not
yet ready" in both poll loops; the iteration just consumes one interval and
the loop continues with the next describe.  No describe `ClientError`
aborts the poll. -/
theorem C4_amended_poll_swallows_client_errors
    (responses : Nat → Except RemoteErr (Option (List Dict)))
    (fuel k : Nat) (ce : AwsClientError)
    (h : responses k = .error (.clientError ce)) :
    clusterPollIter (.error (.clientError ce)) = .continueSleep ∧
    instancePollIter (.error (.clientError ce)) = .continueSleep ∧
    clusterPollLoop responses (fuel + 1) k = clusterPollLoop responses fuel (k + 1) := by
  refine ⟨rfl, rfl, ?_⟩
  simp [clusterPollLoop, h, clusterPollIter]

theorem C4_witness :
    clusterPollIter (.error (.clientError ⟨"Throttling"⟩)) = .continueSleep ∧
    instancePollIter (.error (.clientError ⟨"Throttling"⟩)) = .continueSleep ∧
    clusterPollLoop (fun _ => .error (.clientError ⟨"Throttling"⟩)) 1 0 =
      clusterPollLoop (fun _ => .error (.clientError ⟨"Throttling"⟩)) 0 1 :=
  C4_amended_poll_swallows_client_errors (fun _ => .error (.clientError ⟨"Throttling"⟩))
    0 0 ⟨"Throttling"⟩ rfl

/-- Claim C5 as stated is false at this input: the plan is empty, but the
returned description is not the observed one verbatim — line 225 has first
mutated the observed dictionary in place, appending the
`DBClusterParameterGroupName` alias key. -/
theorem C5_counterexample :
    (createClusterPre sampleBareParams
        (.ok (some [[("DBClusterParameterGroup", Val.str "default"),
          ("Status", Val.str "available")]]))
        (.ok []) (.ok []) (.ok [])).2 =
      .proceedWait
        (.dbCluster [("DBClusterParameterGroup", Val.str "default"),
          ("Status", Val.str "available"),
          ("DBClusterParameterGroupName", Val.str "default")]) 600 ∧
    ([("DBClusterParameterGroup", Val.str "default"), ("Status", Val.str "available"),
      ("DBClusterParameterGroupName", Val.str "default")] : Dict) ≠
      [("DBClusterParameterGroup", Val.str "default"), ("Status", Val.str "available")] := by
  refine ⟨?_, ?_⟩ <;> decide

/-- Claim C5 amended: when the computed plan is empty the outcome is
unchanged, no mutating call is issued, and the outcome carries the observed
description after the single in-place mutation the reconciler performs on
it, the line-225 aliasing: `DBClusterParameterGroupName` is set to the
observed `DBClusterParameterGroup` value and every other key is returned
unchanged. -/
theorem C5_amended_unchanged_with_alias (p : ClusterParams) (c : Dict) (pg : Val)
    (mR rR cR : Except RemoteErr Dict)
    (hpg : dictGet c "DBClusterParameterGroup" = some pg)
    (hb : buildModifyArgs (dictInsert c "DBClusterParameterGroupName" pg)
      (clusterApiArgsExisting p) = .ok []) :
    createClusterPre p (.ok (some [c])) mR rR cR =
      ([Call.describeDBClusters p.cluster_id],
        .proceedWait (.dbCluster (dictInsert c "DBClusterParameterGroupName" pg))
          (effTimeout p.wait_timeout 600)) ∧
    dictGet (dictInsert c "DBClusterParameterGroupName" pg)
      "DBClusterParameterGroupName" = some pg ∧
    (∀ k, k ≠ "DBClusterParameterGroupName" →
      dictGet (dictInsert c "DBClusterParameterGroupName" pg) k = dictGet c k) := by
  refine ⟨?_, ?_, ?_⟩
  · simp [createClusterPre, hpg, hb]
  · simp [dictGet_dictInsert]
  · intro k hk
    simp [dictGet_dictInsert, hk]

theorem C5_witness :
    createClusterPre sampleBareParams
        (.ok (some [[("DBClusterParameterGroup", Val.str "default"),
          ("Status", Val.str "available")]]))
        (.ok []) (.ok []) (.ok []) =
      ([Call.describeDBClusters "c1"],
        .proceedWait
          (.dbCluster (dictInsert
            [("DBClusterParameterGroup", Val.str "default"),
             ("Status", Val.str "available")] "DBClusterParameterGroupName"
            (Val.str "default"))) 600) ∧
    dictGet (dictInsert
        [("DBClusterParameterGroup", Val.str "default"),
         ("Status", Val.str "available")] "DBClusterParameterGroupName"
        (Val.str "default")) "Status" =
      dictGet [("DBClusterParameterGroup", Val.str "default"),
        ("Status", Val.str "available")] "Status" :=
  ⟨(C5_amended_unchanged_with_alias sampleBareParams
      [("DBClusterParameterGroup", Val.str "default"), ("Status", Val.str "available")]
      (Val.str "default") (.ok []) (.ok []) (.ok []) rfl rfl).1,
   (C5_amended_unchanged_with_alias sampleBareParams
      [("DBClusterParameterGroup", Val.str "default"), ("Status", Val.str "available")]
      (Val.str "default") (.ok []) (.ok []) (.ok []) rfl rfl).2.2 "Status" (by decide)⟩

end Docdb

namespace Docdb

/-- Claim C6: for both delete entry points, a describe that reports the
resource absent (the not-found `ClientError`) makes the invocation exit
successfully with no delete call in the trace; and a `ClientError` of any
code raised by the remote delete call — the class boto3 uses for every
remote service failure — still makes the invocation exit successfully
(`result = True`), never surfacing the failure. -/
theorem C6_lenient_delete :
    (∀ (p : ClusterParams) (dres : Except RemoteErr Dict),
      terminateCluster p (.error (.clientError ⟨"DBClusterNotFoundFault"⟩)) dres =
        ([Call.describeDBClusters p.cluster_id], .exited .pyTrue)) ∧
    (∀ (p : ClusterParams) (c : Dict) (ce : AwsClientError),
      (terminateCluster p (.ok (some [c])) (.error (.clientError ce))).2 =
        .exited .pyTrue) ∧
    (∀ (p : InstanceParams) (dres : Except RemoteErr Dict) (wres : Except RemoteErr Unit),
      terminateDbInstance p (.error (.clientError ⟨"DBInstanceNotFound"⟩)) dres wres =
        ([Call.describeDBInstances p.instance_id], .exited .pyTrue)) ∧
    (∀ (p : InstanceParams) (i : Dict) (ce : AwsClientError) (wres : Except RemoteErr Unit),
      (terminateDbInstance p (.ok (some [i])) (.error (.clientError ce)) wres).2 =
        .exited .pyTrue) := by
  refine ⟨?_, ?_, ?_, ?_⟩ <;> intros <;> simp [terminateCluster, terminateDbInstance]

/-- Claim C7: an instance converge against an existing instance always
reconciles tags as remove-all-then-add-all, in that order, on every pass —
one `remove_tags_from_resource` carrying every currently listed key followed
by one `add_tags_to_resource` carrying the full desired set — even when the
desired tags equal the current tags, and the outcome returns the observed
instance description. -/
theorem C7_instance_tag_sequence (p : InstanceParams) (inst : Dict) (arn : String)
    (cur ts : List (String × String)) (cres : Except RemoteErr Dict)
    (harn : dictGet inst "DBInstanceArn" = some (Val.str arn))
    (htags : p.tags = some ts) :
    createDbInstancePre p (.ok (some [inst])) (.ok (some cur)) (.ok ()) (.ok ()) cres =
      ([Call.describeDBInstances p.instance_id,
        Call.listTagsForResource arn,
        Call.removeTagsFromResource arn (cur.map Prod.fst),
        Call.addTagsToResource arn ts],
       .proceedWait (.dbInstance inst) p.wait_timeout) := by
  simp [createDbInstancePre, harn, htags]

/-- Sample parameters: converge an existing instance whose desired tags equal
its current tags. -/
def sampleInstanceParams : InstanceParams :=
  ⟨none, some "c1", some "docdb", "i1", some "db.r5.large", none, "present",
    some [("Name", "db1")], false, 1200⟩

theorem C7_witness :
    createDbInstancePre sampleInstanceParams
        (.ok (some [[("DBInstanceArn", Val.str "arn:db1")]]))
        (.ok (some [("Name", "db1")])) (.ok ()) (.ok ()) (.ok []) =
      ([Call.describeDBInstances "i1",
        Call.listTagsForResource "arn:db1",
        Call.removeTagsFromResource "arn:db1" ["Name"],
        Call.addTagsToResource "arn:db1" [("Name", "db1")]],
       .proceedWait (.dbInstance [("DBInstanceArn", Val.str "arn:db1")]) 1200) :=
  C7_instance_tag_sequence sampleInstanceParams [("DBInstanceArn", Val.str "arn:db1")]
    "arn:db1" [("Name", "db1")] [("Name", "db1")] (.ok []) rfl rfl

/-- Claim C8: a caller-supplied wait timeout of zero is replaced by the
branch default — 600 seconds on the existing-cluster (no-op or modify)
path and on the create path, 3600 seconds on the restore-from-snapshot
path — while any non-zero caller-supplied timeout reaches the wait section
unchanged in every branch. -/
theorem C8_zero_timeout_uses_branch_default :
    (∀ (p : ClusterParams) (c : Dict) (pg : Val) (mR rR cR : Except RemoteErr Dict),
      dictGet c "DBClusterParameterGroup" = some pg →
      buildModifyArgs (dictInsert c "DBClusterParameterGroupName" pg)
        (clusterApiArgsExisting p) = .ok [] →
      (createClusterPre p (.ok (some [c])) mR rR cR).2 =
        .proceedWait (.dbCluster (dictInsert c "DBClusterParameterGroupName" pg))
          (if p.wait_timeout = 0 then 600 else p.wait_timeout)) ∧
    (∀ (p : ClusterParams) (c : Dict) (pg : Val) (m₀ : String × Val) (ms : Dict)
        (r : Dict) (rR cR : Except RemoteErr Dict),
      dictGet c "DBClusterParameterGroup" = some pg →
      buildModifyArgs (dictInsert c "DBClusterParameterGroupName" pg)
        (clusterApiArgsExisting p) = .ok (m₀ :: ms) →
      (createClusterPre p (.ok (some [c])) (.ok r) rR cR).2 =
        .proceedWait (.apiResponse r) (if p.wait_timeout = 0 then 600 else p.wait_timeout)) ∧
    (∀ (p : ClusterParams) (r : Dict) (mR rR : Except RemoteErr Dict),
      p.snapshot_arn = none →
      (createClusterPre p (.error (.clientError ⟨"DBClusterNotFoundFault"⟩))
        mR rR (.ok r)).2 =
        .proceedWait (.apiResponse r) (if p.wait_timeout = 0 then 600 else p.wait_timeout)) ∧
    (∀ (p : ClusterParams) (arn : String) (r : Dict) (mR cR : Except RemoteErr Dict),
      p.snapshot_arn = some arn →
      (createClusterPre p (.error (.clientError ⟨"DBClusterNotFoundFault"⟩))
        mR (.ok r) cR).2 =
        .proceedWait (.apiResponse r) (if p.wait_timeout = 0 then 3600 else p.wait_timeout)) := by
  refine ⟨?_, ?_, ?_, ?_⟩
  · intro p c pg mR rR cR hpg hb
    simp [createClusterPre, hpg, hb, effTimeout]
  · intro p c pg m₀ ms r rR cR hpg hb
    simp [createClusterPre, hpg, hb, effTimeout]
  · intro p r mR rR hs
    simp [createClusterPre, handleOuterErr, notFoundBranch, hs, effTimeout]
  · intro p arn r mR cR hs
    simp [createClusterPre, handleOuterErr, notFoundBranch, hs, effTimeout]

/-- Sample parameters: modify an existing cluster with a non-zero timeout. -/
def sampleTimeoutParams : ClusterParams :=
  ⟨none, "c1", some "docdb", some "4.0.0", none, none, none, none, none, none,
    "present", none, none, none, true, 45, none⟩

theorem C8_witness :
    (createClusterPre sampleBareParams
        (.ok (some [[("DBClusterParameterGroup", Val.str "default")]]))
        (.ok []) (.ok []) (.ok [])).2 =
      .proceedWait
        (.dbCluster [("DBClusterParameterGroup", Val.str "default"),
          ("DBClusterParameterGroupName", Val.str "default")]) 600 ∧
    (createClusterPre sampleTimeoutParams (.ok (some [sampleObservedCluster]))
        (.ok []) (.ok []) (.ok [])).2 = .proceedWait (.apiResponse []) 45 ∧
    (createClusterPre sampleCreateParams
        (.error (.clientError ⟨"DBClusterNotFoundFault"⟩)) (.ok []) (.ok []) (.ok [])).2 =
      .proceedWait (.apiResponse []) 600 ∧
    (createClusterPre sampleRestoreParams
        (.error (.clientError ⟨"DBClusterNotFoundFault"⟩)) (.ok []) (.ok []) (.ok [])).2 =
      .proceedWait (.apiResponse []) 3600 :=
  ⟨C8_zero_timeout_uses_branch_default.1 sampleBareParams
      [("DBClusterParameterGroup", Val.str "default")] (Val.str "default")
      (.ok []) (.ok []) (.ok []) rfl rfl,
   C8_zero_timeout_uses_branch_default.2.1 sampleTimeoutParams sampleObservedCluster
      (Val.str "default") ("EngineVersion", Val.str "4.0.0") [] [] (.ok []) (.ok [])
      rfl rfl,
   C8_zero_timeout_uses_branch_default.2.2.1 sampleCreateParams [] (.ok []) (.ok []) rfl,
   C8_zero_timeout_uses_branch_default.2.2.2 sampleRestoreParams "arn:snap-1" []
      (.ok []) (.ok []) rfl⟩

end Docdb
